import Mathlib

/-!
Formal model of the pipeline-analysis engine of this repository
(`constants.py`, `calculations.py`), together with theorems settling the
specified behaviour of its flow, friction, pressure-drop, containment and
orchestration functions.

Modelling conventions:
* Python floats are modelled as real numbers (`ℝ`); arithmetic on them is
  exact real arithmetic.
* The `float('inf')` value that `calculate_reynolds_number` returns for zero
  viscosity is modelled by working in `EReal` (`⊤` = positive infinity).
* The `float('inf')` sentinel of `calculate_hoop_stress` (wall thickness ≤ 0)
  is modelled as `Option ℝ` with `none` standing for positive infinity; the
  consumer `check_pressure_containment` mirrors, branch by branch, what the
  source's float arithmetic does on an infinite hoop stress.
* Python exceptions (`KeyError` from the grade-dictionary lookup, and the
  `ValueError` that `math.log10(0.0)` raises on the infinite-Reynolds rough
  path of the turbulent solver) are modelled with `Except String`.
-/

open scoped Classical

noncomputable section

namespace Pipeline

/-- `math.log10`: logarithm in base 10. -/
def log10 (x : ℝ) : ℝ := Real.logb 10 x

/-- `constants.py`: `G_ACCELERATION = 9.81`. -/
def G_ACCELERATION : ℝ := 9.81

/-- One entry of the `constants.py` `PIPE_GRADES` table. -/
structure PipeGrade where
  name : String
  SMYS : ℝ
  tensile_strength : ℝ
  description : String

/-- `constants.py` `PIPE_GRADES` dictionary access `PIPE_GRADES[key]`,
modelled as an `Option`-valued lookup (`none` = the `KeyError` case). -/
def pipeGradeLookup (g : String) : Option PipeGrade :=
  if g = "X42" then some ⟨"API 5L X42", 290, 414, "Carbon Steel, Seamless/Welded"⟩
  else if g = "X52" then some ⟨"API 5L X52", 359, 455, "Carbon Steel, Higher grade"⟩
  else if g = "X60" then some ⟨"API 5L X60", 414, 517, "High Strength Carbon Steel"⟩
  else if g = "X65" then some ⟨"API 5L X65", 448, 531, "High Strength Carbon Steel"⟩
  else none

/-- `FlowCalculations.calculate_reynolds_number`: returns `float('inf')`
(here `⊤ : EReal`) when `viscosity == 0`, else `velocity * diameter / viscosity`. -/
def calculate_reynolds_number (velocity diameter viscosity : ℝ) : EReal :=
  if viscosity = 0 then ⊤ else ((velocity * diameter / viscosity : ℝ) : EReal)

/-- `FlowCalculations.calculate_flow_velocity`: `0` for non-positive diameter,
else `flow_rate / (π * (d/2)^2)`. -/
def calculate_flow_velocity (flow_rate_m3_s internal_diameter_m : ℝ) : ℝ :=
  if internal_diameter_m ≤ 0 then 0
  else flow_rate_m3_s / (Real.pi * (internal_diameter_m / 2) ^ 2)

/-- `FlowCalculations.flow_regime_classification`. -/
def flow_regime_classification (reynolds_number : EReal) : String :=
  if reynolds_number < ((2300 : ℝ) : EReal) then "Laminar (smooth, organized)"
  else if reynolds_number < ((4000 : ℝ) : EReal) then "Transitional (unstable)"
  else "Turbulent (chaotic, faster mixing)"

/-- `FrictionFactorCalculations.calculate_friction_factor_laminar`. -/
def calculate_friction_factor_laminar (reynolds_number : ℝ) : ℝ :=
  if reynolds_number ≤ 0 then 0 else 64 / reynolds_number

/-- The value of the Swamee-Jain initial guess of
`calculate_friction_factor_turbulent_colebrook` (source line 154),
`0.25 / (log10(eps_r/3.7 + 5.74/Re^0.9))^2`, in the case where its
denominator is nonzero. The case `log10(...) = 0` — where Python's
`0.25 / 0.0` raises `ZeroDivisionError` — is checked before this value is
used, in `calculate_friction_factor_turbulent_colebrookE` below. -/
def swamee_jain_seed (reynolds_number relative_roughness : ℝ) : ℝ :=
  0.25 / (log10 (relative_roughness / 3.7 + 5.74 / reynolds_number ^ (0.9 : ℝ))) ^ 2

/-- The value of one update of the iteration body of
`calculate_friction_factor_turbulent_colebrook` (source lines 158-166):
`f_new = 1 / (2*log10(eps_r/3.7) + 2*log10(2.51/(Re*sqrt(f_guess))))^2`,
in the case where the squared term is nonzero. The case
`term1 + term2 = 0` — where Python's `1.0 / 0.0` raises
`ZeroDivisionError` — is checked before this value is used, in
`colebrook_loopE` below.
Note: the source takes the log of each term separately (so the two logs sum
to the log of a product), not the log of the sum of the two terms. -/
def colebrook_step (reynolds_number relative_roughness f_guess : ℝ) : ℝ :=
  1 / (2 * log10 (relative_roughness / 3.7) +
       2 * log10 (2.51 / (reynolds_number * Real.sqrt f_guess))) ^ 2

/-- The iteration loop of `calculate_friction_factor_turbulent_colebrook`
(source lines 157-174): up to `n` rounds; stop (returning the current
`f_guess`) when `Re*sqrt(f_guess) = 0` or when `|f_new - f_guess| < 1e-6`. -/
def colebrook_loop (reynolds_number relative_roughness : ℝ) : ℕ → ℝ → ℝ
  | 0, f_guess => f_guess
  | n + 1, f_guess =>
    if reynolds_number * Real.sqrt f_guess = 0 then f_guess
    else if |colebrook_step reynolds_number relative_roughness f_guess - f_guess| < 1e-6 then
      f_guess
    else colebrook_loop reynolds_number relative_roughness n
      (colebrook_step reynolds_number relative_roughness f_guess)

/-- `FrictionFactorCalculations.calculate_friction_factor_turbulent_colebrook`
for a finite Reynolds number: Blasius closed form when the relative roughness
is below `1e-5`, otherwise 5 rounds of the iteration from the Swamee-Jain
seed. This is the value computed when no division of the rough branch
faults; `calculate_friction_factor_turbulent_colebrookE` below adds the
fault cases, and `calculate_friction_factor_turbulent_colebrookE_ok` proves
the two agree on every non-faulting run. -/
def calculate_friction_factor_turbulent_colebrook
    (reynolds_number relative_roughness : ℝ) : ℝ :=
  if relative_roughness < 1e-5 then 0.316 * reynolds_number ^ (-0.25 : ℝ)
  else colebrook_loop reynolds_number relative_roughness 5
    (swamee_jain_seed reynolds_number relative_roughness)

/-- The iteration loop as the program executes it: each round first computes
`f_new`, whose division `1.0/((term1+term2)**2)` raises `ZeroDivisionError`
when `term1 + term2` is exactly zero; that fault check precedes the
convergence test, exactly as in the source (line 166 before line 169). On
the selector's calling convention (`Re ≥ 2300`, `eps_r ≥ 1e-5`, `f > 0`)
the remaining operations — both `log10` arguments and `sqrt` — stay inside
their domains, so this is the only fault of the loop body. -/
def colebrook_loopE (reynolds_number relative_roughness : ℝ) :
    ℕ → ℝ → Except String ℝ
  | 0, f_guess => Except.ok f_guess
  | n + 1, f_guess =>
    if reynolds_number * Real.sqrt f_guess = 0 then Except.ok f_guess
    else if 2 * log10 (relative_roughness / 3.7) +
        2 * log10 (2.51 / (reynolds_number * Real.sqrt f_guess)) = 0 then
      Except.error "ZeroDivisionError"
    else if |colebrook_step reynolds_number relative_roughness f_guess - f_guess| < 1e-6 then
      Except.ok f_guess
    else colebrook_loopE reynolds_number relative_roughness n
      (colebrook_step reynolds_number relative_roughness f_guess)

/-- The turbulent solver as the program executes it (finite Reynolds
number): the Swamee-Jain seed line `0.25/(log10(eps_r/3.7 + 5.74/Re^0.9))**2`
raises `ZeroDivisionError` when its `log10` factor is exactly zero (argument
exactly 1, reachable at `eps_r ≈ 3.7` with turbulent `Re`); otherwise the
loop runs with its own per-iteration fault check. On the selector's calling
convention (`Re ≥ 2300`, `eps_r ≥ 1e-5`) the seed's `log10` argument is
positive, so this is the only fault of the seed line. -/
def calculate_friction_factor_turbulent_colebrookE
    (reynolds_number relative_roughness : ℝ) : Except String ℝ :=
  if relative_roughness < 1e-5 then
    Except.ok (0.316 * reynolds_number ^ (-0.25 : ℝ))
  else if log10 (relative_roughness / 3.7 +
      5.74 / reynolds_number ^ (0.9 : ℝ)) = 0 then
    Except.error "ZeroDivisionError"
  else colebrook_loopE reynolds_number relative_roughness 5
    (swamee_jain_seed reynolds_number relative_roughness)

/-- The iterate that the specification (and the source function's own
docstring, line 131) prescribe: the Colebrook-White right-hand side
`1/sqrt f = -2*log10(eps_r/3.7 + 2.51/(Re*sqrt f))` rearranged for `f`,
i.e. the logarithm of the *sum* of the two terms. To be compared with
`colebrook_step`, which is what the source actually computes. -/
def colebrook_spec_step (reynolds_number relative_roughness f_guess : ℝ) : ℝ :=
  1 / (-2 * log10 (relative_roughness / 3.7 +
        2.51 / (reynolds_number * Real.sqrt f_guess))) ^ 2

/-- `FrictionFactorCalculations.calculate_friction_factor` (the selector).
The `reynolds_number = ⊤` branch follows the source's float semantics at an
infinite Reynolds number: the smooth-pipe branch returns
`0.316 * inf**(-0.25) = 0.0`; on the rough branch the seed's `log10`
argument is `eps_r/3.7 + 5.74/inf = eps_r/3.7`, so the seed line raises
`ZeroDivisionError` when `log10(eps_r/3.7) = 0` (i.e. `eps_r = 3.7`), and
otherwise the first iteration reaches `2.51/(inf*sqrt f) = 0.0` and
`math.log10(0.0)` raises `ValueError`. The finite rough branch runs the
fallible solver `calculate_friction_factor_turbulent_colebrookE`. -/
def calculate_friction_factor (reynolds_number : EReal)
    (absolute_roughness diameter : ℝ) : Except String (ℝ × String) :=
  if diameter ≤ 0 then Except.ok (0, "Invalid diameter")
  else if reynolds_number < ((2300 : ℝ) : EReal) then
    Except.ok (calculate_friction_factor_laminar reynolds_number.toReal, "Laminar")
  else if reynolds_number = ⊤ then
    (if absolute_roughness / diameter < 1e-5 then Except.ok (0, "Turbulent")
     else if log10 (absolute_roughness / diameter / 3.7) = 0 then
       Except.error "ZeroDivisionError"
     else Except.error "ValueError")
  else
    match calculate_friction_factor_turbulent_colebrookE reynolds_number.toReal
        (absolute_roughness / diameter) with
    | Except.error e => Except.error e
    | Except.ok f => Except.ok (f, "Turbulent")

/-- `PressureDropCalculations.calculate_friction_pressure_drop`
(Darcy-Weisbach with the degenerate-geometry sentinel). -/
def calculate_friction_pressure_drop
    (friction_factor length_m diameter_m velocity_ms density_kg_m3 : ℝ) : ℝ :=
  if diameter_m ≤ 0 ∨ density_kg_m3 ≤ 0 then 0
  else friction_factor * (length_m / diameter_m) * (density_kg_m3 * velocity_ms ^ 2 / 2)

/-- `PressureDropCalculations.calculate_elevation_pressure_drop`. -/
def calculate_elevation_pressure_drop (elevation_gain_m density_kg_m3 : ℝ) : ℝ :=
  density_kg_m3 * G_ACCELERATION * elevation_gain_m

/-- `PressureDropCalculations.calculate_total_pressure_drop`:
returns `(total, minor_losses)` with `minor_losses = |friction| * 0.10`. -/
def calculate_total_pressure_drop (friction_dp_pa elevation_dp_pa : ℝ) : ℝ × ℝ :=
  (friction_dp_pa + elevation_dp_pa + |friction_dp_pa| * 0.10, |friction_dp_pa| * 0.10)

/-- `PressureDropCalculations.convert_pressure_drop_to_bar_per_km`. -/
def convert_pressure_drop_to_bar_per_km (pressure_drop_pa length_km : ℝ) : ℝ :=
  if length_km ≤ 0 then 0 else pressure_drop_pa / 100000 / length_km * 100

/-- `PipeSizingCalculations.calculate_internal_diameter`. -/
def calculate_internal_diameter (outside_diameter_mm wall_thickness_mm : ℝ) : ℝ :=
  outside_diameter_mm - 2 * wall_thickness_mm

/-- `PipeSizingCalculations.calculate_required_wall_thickness`. -/
def calculate_required_wall_thickness
    (internal_pressure_mpa outside_diameter_mm smys_mpa design_factor : ℝ) : ℝ :=
  if smys_mpa ≤ 0 ∨ design_factor ≤ 0 then 0
  else internal_pressure_mpa * outside_diameter_mm / (2 * design_factor * smys_mpa)

/-- `PipeSizingCalculations.calculate_hoop_stress`: `none` models the
`float('inf')` returned for non-positive wall thickness. -/
def calculate_hoop_stress
    (internal_pressure_mpa outside_diameter_mm wall_thickness_mm : ℝ) : Option ℝ :=
  if wall_thickness_mm ≤ 0 then none
  else some (internal_pressure_mpa * outside_diameter_mm / (2 * wall_thickness_mm))

/-- The dictionary returned by `check_pressure_containment`. The `message`
field of the source is an f-string rendering of `safe`, the hoop stress and
the allowable stress; its numeric formatting is not modelled, only the
SAFE/UNSAFE verdict it displays. -/
structure ContainmentCheck where
  safe : Bool
  margin_percent : ℝ
  hoop_stress : Option ℝ
  allowable_stress : ℝ
  message : String

/-- `PipeSizingCalculations.check_pressure_containment`. On an infinite hoop
stress (`none`), the branches mirror the source's float arithmetic:
`inf <= allowable` is false, and `(allowable - inf)/allowable * 100 = -inf`
when `allowable > 0` (and `0` otherwise), so `max(0, margin) = 0` either way. -/
def check_pressure_containment
    (hoop_stress_mpa : Option ℝ) (smys_mpa design_factor : ℝ) : ContainmentCheck :=
  match hoop_stress_mpa with
  | none =>
    { safe := false
      margin_percent := 0
      hoop_stress := none
      allowable_stress := design_factor * smys_mpa
      message := "UNSAFE" }
  | some h =>
    { safe := decide (h ≤ design_factor * smys_mpa)
      margin_percent := max 0 (if 0 < design_factor * smys_mpa then
        (design_factor * smys_mpa - h) / (design_factor * smys_mpa) * 100 else 0)
      hoop_stress := some h
      allowable_stress := design_factor * smys_mpa
      message := if h ≤ design_factor * smys_mpa then "SAFE" else "UNSAFE" }

/-- `results['outlet_pressure']` of `PipelineAnalysis.analyze_pipeline`
(source lines 559-568). -/
structure OutletPressureSection where
  inlet_pressure_bar : ℝ
  outlet_pressure_bar : ℝ
  pressure_loss_percent : ℝ

/-- Step 6 of `analyze_pipeline` (source lines 559-568): the outlet pressure
is clamped at 0 with `max`, and the loss percentage divides by the inlet
pressure only when it is positive. -/
def outlet_pressure_section (operating_pressure_bar dp_total : ℝ) : OutletPressureSection :=
  { inlet_pressure_bar := operating_pressure_bar
    outlet_pressure_bar := max 0 ((operating_pressure_bar * 100000 - dp_total) / 100000)
    pressure_loss_percent :=
      if 0 < operating_pressure_bar * 100000 then
        dp_total / (operating_pressure_bar * 100000) * 100
      else 0 }

/-- `results['input']`. -/
structure InputSection where
  flow_rate_m3_s : ℝ
  pipe_od_mm : ℝ
  wall_thickness_mm : ℝ
  pipe_length_km : ℝ
  elevation_start : ℝ
  elevation_end : ℝ
  operating_pressure_bar : ℝ
  pipe_grade : String

/-- `results['pipe_dimensions']`. -/
structure PipeDimensionsSection where
  outside_diameter_mm : ℝ
  wall_thickness_mm : ℝ
  internal_diameter_mm : ℝ
  internal_diameter_m : ℝ

/-- `results['flow_properties']`. -/
structure FlowPropertiesSection where
  velocity_ms : ℝ
  reynolds_number : EReal
  flow_regime : String
  fluid_density : ℝ
  fluid_viscosity : ℝ

/-- `results['friction']`. -/
structure FrictionSection where
  friction_factor : ℝ
  calculation_method : String
  pipe_roughness_m : ℝ

/-- `results['pressure_drop']`. -/
structure PressureDropSection where
  friction_loss_pa : ℝ
  friction_loss_bar : ℝ
  elevation_change_pa : ℝ
  elevation_change_bar : ℝ
  minor_losses_pa : ℝ
  minor_losses_bar : ℝ
  total_pressure_drop_pa : ℝ
  total_pressure_drop_bar : ℝ
  bar_per_100km : ℝ

/-- `results['pressure_containment']`. -/
structure PressureContainmentSection where
  design_pressure_bar : ℝ
  design_pressure_mpa : ℝ
  hoop_stress_mpa : Option ℝ
  allowable_stress_mpa : ℝ
  safe : Bool
  safety_margin_percent : ℝ
  compliance_message : String

/-- `results['velocity_check']`. The source attaches a formatted warning
string exactly when the velocity exceeds 4 m/s; only its presence is
modelled. -/
structure VelocityCheckSection where
  velocity_ms : ℝ
  velocity_limit_typical_ms : ℝ
  within_limit : Bool
  warning : Option String

/-- The complete eight-section result dictionary of `analyze_pipeline`. -/
structure AnalysisReport where
  input : InputSection
  pipe_dimensions : PipeDimensionsSection
  flow_properties : FlowPropertiesSection
  friction : FrictionSection
  pressure_drop : PressureDropSection
  outlet_pressure : OutletPressureSection
  pressure_containment : PressureContainmentSection
  velocity_check : VelocityCheckSection

/-- `PipelineAnalysis.analyze_pipeline` (source lines 452-605). The two
failure channels of the source are the friction solver's `ValueError`
(zero-viscosity rough-pipe path, raised at step 4) and the grade dictionary's
`KeyError` (step 7); the friction step runs first, so its error surfaces
first. Everything in between is pure, so the two lookups may be sequenced
before the remaining arithmetic without changing the result. -/
def analyze_pipeline (flow_rate_m3_s pipe_od_mm wall_thickness_mm pipe_length_km
    elevation_start_m elevation_end_m operating_pressure_bar fluid_density_kg_m3
    fluid_viscosity_pa_s pipe_roughness_m : ℝ) (pipe_grade : String) :
    Except String AnalysisReport :=
  let id_mm := calculate_internal_diameter pipe_od_mm wall_thickness_mm
  let id_m := id_mm / 1000
  let velocity_ms := calculate_flow_velocity flow_rate_m3_s id_m
  let re := calculate_reynolds_number velocity_ms id_m fluid_viscosity_pa_s
  match calculate_friction_factor re pipe_roughness_m id_m with
  | Except.error e => Except.error e
  | Except.ok fr =>
    match pipeGradeLookup pipe_grade with
    | none => Except.error "KeyError"
    | some grade =>
      let length_m := pipe_length_km * 1000
      let dp_friction := calculate_friction_pressure_drop fr.1 length_m id_m
        velocity_ms fluid_density_kg_m3
      let dp_elevation := calculate_elevation_pressure_drop
        (elevation_end_m - elevation_start_m) fluid_density_kg_m3
      let dpt := calculate_total_pressure_drop dp_friction dp_elevation
      let design_pressure_bar := operating_pressure_bar * 1.5
      let design_pressure_mpa := design_pressure_bar / 10
      let hoop := calculate_hoop_stress design_pressure_mpa pipe_od_mm wall_thickness_mm
      let pressure_check := check_pressure_containment hoop grade.SMYS 0.72
      Except.ok
        { input := ⟨flow_rate_m3_s, pipe_od_mm, wall_thickness_mm, pipe_length_km,
            elevation_start_m, elevation_end_m, operating_pressure_bar, pipe_grade⟩
          pipe_dimensions := ⟨pipe_od_mm, wall_thickness_mm, id_mm, id_m⟩
          flow_properties := ⟨velocity_ms, re, flow_regime_classification re,
            fluid_density_kg_m3, fluid_viscosity_pa_s⟩
          friction := ⟨fr.1, fr.2, pipe_roughness_m⟩
          pressure_drop := ⟨dp_friction, dp_friction / 100000,
            dp_elevation, dp_elevation / 100000, dpt.2, dpt.2 / 100000,
            dpt.1, dpt.1 / 100000,
            convert_pressure_drop_to_bar_per_km dp_friction pipe_length_km⟩
          outlet_pressure := outlet_pressure_section operating_pressure_bar dpt.1
          pressure_containment := ⟨design_pressure_bar, design_pressure_mpa,
            pressure_check.hoop_stress, 0.72 * grade.SMYS, pressure_check.safe,
            pressure_check.margin_percent, pressure_check.message⟩
          velocity_check := ⟨velocity_ms, 4.0, decide (velocity_ms ≤ 4.0),
            if 4.0 < velocity_ms then some "High velocity. Consider larger diameter."
            else none⟩ }

/-- The quantities claimed to be independent of the pipe length: velocity,
Reynolds number, flow-regime classification, friction factor, and the whole
pressure-containment section. -/
def length_invariant_view (r : AnalysisReport) :
    ℝ × EReal × String × ℝ × PressureContainmentSection :=
  (r.flow_properties.velocity_ms, r.flow_properties.reynolds_number,
   r.flow_properties.flow_regime, r.friction.friction_factor, r.pressure_containment)

/-- `true` exactly on `Except.ok` results (the source call returning
normally rather than raising). -/
def exceptIsOk {ε α : Type} : Except ε α → Bool
  | Except.ok _ => true
  | Except.error _ => false

/-! ## Theorems -/

/-- Claim C7: in the turbulent smooth-pipe band (`Re ≥ 2300`,
relative roughness `< 1e-5`) the turbulent solver returns exactly the
closed-form Blasius value `0.316 * Re^(-0.25)`; the iteration loop is never
entered. -/
theorem C7_blasius_smooth (re eps_r : ℝ) (_hre : 2300 ≤ re) (heps : eps_r < 1e-5) :
    calculate_friction_factor_turbulent_colebrook re eps_r
      = 0.316 * re ^ (-0.25 : ℝ) := by
  unfold calculate_friction_factor_turbulent_colebrook
  rw [if_pos heps]

/-- Witness for C7 at `Re = 4096`, `eps_r = 0`. -/
theorem C7_blasius_smooth_witness :
    calculate_friction_factor_turbulent_colebrook 4096 0
      = 0.316 * (4096 : ℝ) ^ (-0.25 : ℝ) :=
  C7_blasius_smooth 4096 0 (by norm_num) (by norm_num)

/-- Counterexample to claim C8 as stated: at `Re = 100 < 2300` but diameter
`0`, the selector short-circuits to `(0, "Invalid diameter")`, so it neither
takes the laminar path nor returns `64/Re` (and `Re > 0`, so the `Re ≤ 0`
escape clause does not apply). -/
theorem C8_zero_diameter_cx :
    calculate_friction_factor ((100 : ℝ) : EReal) 0 0
        = Except.ok ((0 : ℝ), "Invalid diameter") ∧
      (100 : ℝ) < 2300 ∧ (0 : ℝ) < 100 ∧
      (0 : ℝ) ≠ 64 / 100 ∧ "Invalid diameter" ≠ "Laminar" := by
  refine ⟨?_, by norm_num, by norm_num, by norm_num, by decide⟩
  unfold calculate_friction_factor
  rw [if_pos le_rfl]

/-- Claim C8, amended with the selector's diameter guard: for positive
diameter and `Re < 2300` the selector takes the laminar path, returning
`64/Re` for `Re > 0` and the sentinel `0` for `Re ≤ 0`. -/
theorem C8_laminar_selector (re rough d : ℝ) (hd : 0 < d) (hre : re < 2300) :
    calculate_friction_factor (re : EReal) rough d
        = Except.ok (calculate_friction_factor_laminar re, "Laminar") ∧
      (0 < re → calculate_friction_factor_laminar re = 64 / re) ∧
      (re ≤ 0 → calculate_friction_factor_laminar re = 0) := by
  refine ⟨?_, ?_, ?_⟩
  · unfold calculate_friction_factor
    rw [if_neg (not_le.mpr hd), if_pos (EReal.coe_lt_coe_iff.mpr hre),
      EReal.toReal_coe]
  · intro h
    unfold calculate_friction_factor_laminar
    rw [if_neg (not_le.mpr h)]
  · intro h
    unfold calculate_friction_factor_laminar
    rw [if_pos h]

/-- Witness for the amended C8 at `Re = 128`, diameter `1`. -/
theorem C8_laminar_selector_witness :
    calculate_friction_factor ((128 : ℝ) : EReal) 0 1
      = Except.ok (calculate_friction_factor_laminar 128, "Laminar") :=
  (C8_laminar_selector 128 0 1 (by norm_num) (by norm_num)).1

/-- Counterexample to claim C2 as stated: with diameter `1 > 0` and
`Re = 4096` on the smooth turbulent path, the method label returned is the
bare string "Turbulent", which is none of the three labels the claim allows
(the source never distinguishes the Blasius and Colebrook sub-paths). -/
theorem C2_method_label_cx :
    (calculate_friction_factor ((4096 : ℝ) : EReal) 0 1).map Prod.snd
        = Except.ok "Turbulent" ∧
      (0 : ℝ) < 1 ∧ "Turbulent" ≠ "Laminar" ∧
      "Turbulent" ≠ "Turbulent-Blasius" ∧ "Turbulent" ≠ "Turbulent-Colebrook" := by
  refine ⟨?_, by norm_num, by decide, by decide, by decide⟩
  unfold calculate_friction_factor
  rw [if_neg (by norm_num : ¬(1 : ℝ) ≤ 0),
    if_neg (by rw [EReal.coe_lt_coe_iff]; norm_num),
    if_neg (EReal.coe_ne_top _)]
  unfold calculate_friction_factor_turbulent_colebrookE
  rw [if_pos (by norm_num : (0 : ℝ) / 1 < 1e-5)]
  rfl

/-- Claim C2, amended to the labels the source actually produces: for
every call with positive diameter that returns normally, the method label is
"Laminar" or "Turbulent" (the two turbulent sub-paths share one label). -/
theorem C2_method_label (re : EReal) (rough d : ℝ) (hd : 0 < d) (f : ℝ)
    (m : String) (h : calculate_friction_factor re rough d = Except.ok (f, m)) :
    m = "Laminar" ∨ m = "Turbulent" := by
  unfold calculate_friction_factor at h
  split_ifs at h with h1 h2 h3 h4 h5
  all_goals first
    | exact absurd h1 (not_le.mpr hd)
    | exact Except.noConfusion h
    | (simp only [Except.ok.injEq, Prod.mk.injEq] at h
       first
         | exact Or.inl h.2.symm
         | exact Or.inr h.2.symm)
    | (cases hE : calculate_friction_factor_turbulent_colebrookE re.toReal (rough / d) with
       | error e =>
         rw [hE] at h
         exact Except.noConfusion h
       | ok fv =>
         rw [hE] at h
         simp only [Except.ok.injEq, Prod.mk.injEq] at h
         exact Or.inr h.2.symm)

/-- Witness for the amended C2 at `Re = 128`, diameter `1`. -/
theorem C2_method_label_witness :
    "Laminar" = "Laminar" ∨ "Laminar" = "Turbulent" :=
  C2_method_label ((128 : ℝ) : EReal) 0 1 (by norm_num)
    (calculate_friction_factor_laminar 128) "Laminar" (by
      unfold calculate_friction_factor
      rw [if_neg (by norm_num : ¬(1 : ℝ) ≤ 0),
        if_pos (EReal.coe_lt_coe_iff.mpr (by norm_num : (128 : ℝ) < 2300)),
        EReal.toReal_coe])

/-- Counterexample to claim C3 as stated: with friction factor `1 > 0`,
diameter `1 > 0`, density `1 > 0` but velocity `0`, doubling the length does
not change the friction pressure drop (both are `0`), so the increase is not
strict. -/
theorem C3_zero_velocity_cx :
    calculate_friction_pressure_drop 1 1 1 0 1
        = calculate_friction_pressure_drop 1 2 1 0 1 ∧
      (0 : ℝ) < 1 ∧ (1 : ℝ) < 2 := by
  refine ⟨?_, by norm_num, by norm_num⟩
  unfold calculate_friction_pressure_drop
  norm_num

/-- Claim C3, amended with the (necessary) extra hypothesis that the
velocity is nonzero: then the friction pressure drop is strictly increasing
in the length. -/
theorem C3_length_monotone (f d v rho L1 L2 : ℝ) (hf : 0 < f) (hd : 0 < d)
    (hrho : 0 < rho) (hv : v ≠ 0) (hL : L1 < L2) :
    calculate_friction_pressure_drop f L1 d v rho
      < calculate_friction_pressure_drop f L2 d v rho := by
  have hcond : ¬(d ≤ 0 ∨ rho ≤ 0) := by
    push_neg
    exact ⟨hd, hrho⟩
  unfold calculate_friction_pressure_drop
  rw [if_neg hcond, if_neg hcond]
  have hv2 : 0 < v ^ 2 := pow_two_pos_of_ne_zero hv
  have hC : 0 < rho * v ^ 2 / 2 := by positivity
  have h1 : L1 / d < L2 / d := (div_lt_div_iff_of_pos_right hd).mpr hL
  exact mul_lt_mul_of_pos_right (mul_lt_mul_of_pos_left h1 hf) hC

/-- Witness for the amended C3 at `f = 1`, `d = 1`, `v = 1`, `rho = 1`,
lengths `1 < 2`. -/
theorem C3_length_monotone_witness :
    calculate_friction_pressure_drop 1 1 1 1 1
      < calculate_friction_pressure_drop 1 2 1 1 1 :=
  C3_length_monotone 1 1 1 1 1 2 (by norm_num) (by norm_num) (by norm_num)
    (by norm_num) (by norm_num)

/-- Counterexample to claim C4 as stated: with `SMYS = 0` the allowable
stress is `0`, and a hoop stress of `-1` reports `safe = true` with margin
`0` even though the hoop stress does not equal the allowable stress
(the margin formula's `allowable > 0` guard returns `0` there). -/
theorem C4_degenerate_allowable_cx :
    ((check_pressure_containment (some (-1)) 0 0.72).safe = true ∧
        (check_pressure_containment (some (-1)) 0 0.72).margin_percent = 0) ∧
      (-1 : ℝ) ≠ 0.72 * 0 := by
  refine ⟨⟨?_, ?_⟩, by norm_num⟩
  · show decide ((-1 : ℝ) ≤ 0.72 * 0) = true
    rw [decide_eq_true_eq]
    norm_num
  · show max 0 (if (0 : ℝ) < 0.72 * 0 then (0.72 * 0 - (-1)) / (0.72 * 0) * 100 else 0) = 0
    rw [if_neg (by norm_num)]
    norm_num

/-- Claim C4, amended with the hypothesis that the allowable stress
`design_factor * SMYS` is positive: then `safe = true` together with
`margin_percent = 0` holds exactly when the hoop stress equals the
allowable stress. -/
theorem C4_containment_boundary (hoop smys df : ℝ) (hpos : 0 < df * smys) :
    ((check_pressure_containment (some hoop) smys df).safe = true ∧
        (check_pressure_containment (some hoop) smys df).margin_percent = 0) ↔
      hoop = df * smys := by
  have hsafe : (check_pressure_containment (some hoop) smys df).safe
      = decide (hoop ≤ df * smys) := rfl
  have hmargin : (check_pressure_containment (some hoop) smys df).margin_percent
      = max 0 ((df * smys - hoop) / (df * smys) * 100) := by
    show max 0 (if 0 < df * smys then (df * smys - hoop) / (df * smys) * 100 else 0) = _
    rw [if_pos hpos]
  rw [hsafe, hmargin, decide_eq_true_eq]
  constructor
  · rintro ⟨h1, h2⟩
    refine le_antisymm h1 ?_
    by_contra hlt
    push_neg at hlt
    have hm : 0 < (df * smys - hoop) / (df * smys) * 100 :=
      mul_pos (div_pos (by linarith) hpos) (by norm_num)
    rw [max_eq_right hm.le] at h2
    linarith
  · intro heq
    subst heq
    exact ⟨le_rfl, by simp⟩

/-- Witness for the amended C4 at the boundary `hoop = 0.72 * 359 = 258.48`. -/
theorem C4_containment_boundary_witness :
    (check_pressure_containment (some 258.48) 359 0.72).safe = true ∧
      (check_pressure_containment (some 258.48) 359 0.72).margin_percent = 0 :=
  (C4_containment_boundary 258.48 359 0.72 (by norm_num)).mpr (by norm_num)

/-- Claim C6: the reported outlet pressure is the inlet pressure minus the
total loss (in bar), clamped at `0`, hence never negative; the loss
percentage divides by the true (unclamped) inlet pressure when it is
positive, and is `0` when the inlet pressure is `0`. -/
theorem C6_outlet_reporting (p dp : ℝ) :
    (outlet_pressure_section p dp).outlet_pressure_bar = max 0 (p - dp / 100000) ∧
      0 ≤ (outlet_pressure_section p dp).outlet_pressure_bar ∧
      (0 < p → (outlet_pressure_section p dp).pressure_loss_percent
        = dp / (p * 100000) * 100) ∧
      (p = 0 → (outlet_pressure_section p dp).pressure_loss_percent = 0) := by
  refine ⟨?_, ?_, ?_, ?_⟩
  · show max 0 ((p * 100000 - dp) / 100000) = max 0 (p - dp / 100000)
    congr 1
    ring
  · exact le_max_left _ _
  · intro hp
    show (if 0 < p * 100000 then dp / (p * 100000) * 100 else 0) = _
    rw [if_pos (by positivity)]
  · intro hp
    subst hp
    show (if (0 : ℝ) < 0 * 100000 then dp / (0 * 100000) * 100 else 0) = 0
    rw [if_neg (by norm_num)]

/-- Witness for C6 at inlet `0` (loss percentage guard) and inlet `20` bar. -/
theorem C6_outlet_reporting_witness :
    (outlet_pressure_section 0 300).pressure_loss_percent = 0 ∧
      (outlet_pressure_section 20 2500000).outlet_pressure_bar
        = max 0 (20 - 2500000 / 100000) :=
  ⟨(C6_outlet_reporting 0 300).2.2.2 rfl, (C6_outlet_reporting 20 2500000).1⟩

/-- Claim C1 (code bug): what one round of the source's iteration actually
computes, compared with the iterate the claim (and the source's own
docstring) prescribe, at the in-band state `Re = 2510 ≥ 2300`,
`eps_r = 0.037 ≥ 1e-5`, current `f = 1e-6`. There `eps_r/3.7 = 0.01` and
`2.51/(Re*sqrt f) = 1`, so the source's sum-of-logs update gives
`1/(2*log10(0.01) + 2*log10(1))^2 = 1/16`, while the Colebrook-White form
`1/(-2*log10(0.01 + 1))^2 = 1/(4*log10(1.01)^2)` is strictly larger than
`1/16`: the loop body does not implement the claimed (and documented)
rearranged Colebrook-White right-hand side. -/
theorem C1_colebrook_step_bug :
    colebrook_step 2510 0.037 1e-6 = 1 / 16 ∧
      colebrook_spec_step 2510 0.037 1e-6 ≠ 1 / 16 ∧
      (2300 : ℝ) ≤ 2510 ∧ (1e-5 : ℝ) ≤ 0.037 := by
  have hsqrt : Real.sqrt 1e-6 = 1e-3 := by
    rw [show (1e-6 : ℝ) = (1e-3 : ℝ) ^ 2 by norm_num, Real.sqrt_sq (by norm_num)]
  have hb : (2.51 : ℝ) / (2510 * Real.sqrt 1e-6) = 1 := by
    rw [hsqrt]
    norm_num
  have hpow : (10 : ℝ) ^ (-2 : ℝ) = 0.01 := by
    rw [Real.rpow_neg (by norm_num), show ((2 : ℝ)) = ((2 : ℕ) : ℝ) by norm_num,
      Real.rpow_natCast]
    norm_num
  have hlog001 : log10 0.01 = -2 := by
    unfold log10
    rw [← hpow]
    exact Real.logb_rpow (by norm_num) (by norm_num)
  have hdiv : (0.037 : ℝ) / 3.7 = 0.01 := by norm_num
  refine ⟨?_, ?_, by norm_num, by norm_num⟩
  · unfold colebrook_step
    rw [hdiv, hb, hlog001]
    unfold log10
    rw [Real.logb_one]
    norm_num
  · have harg : (0.037 : ℝ) / 3.7 + 2.51 / (2510 * Real.sqrt 1e-6) = 1.01 := by
      rw [hsqrt]
      norm_num
    set c : ℝ := Real.logb 10 1.01 with hc
    have hc0 : 0 < c := Real.logb_pos (by norm_num) (by norm_num)
    have hc1 : c < 1 := by
      have hlt : Real.logb 10 1.01 < Real.logb 10 10 :=
        Real.logb_lt_logb (by norm_num) (by norm_num) (by norm_num)
      rw [Real.logb_self_eq_one (by norm_num)] at hlt
      exact hlt
    have hspec : colebrook_spec_step 2510 0.037 1e-6 = 1 / (4 * c ^ 2) := by
      unfold colebrook_spec_step
      rw [harg]
      unfold log10
      rw [hc]
      ring_nf
    rw [hspec]
    have h4c : 0 < 4 * c ^ 2 := by positivity
    have hlt16 : 4 * c ^ 2 < 16 := by nlinarith
    exact (ne_of_gt (one_div_lt_one_div_of_lt h4c hlt16))

/-- On every non-faulting run, the fallible iteration loop computes the same
value as the pure loop `colebrook_loop`. -/
theorem colebrook_loopE_ok (re eps_r : ℝ) :
    ∀ (n : ℕ) (f v : ℝ), colebrook_loopE re eps_r n f = Except.ok v →
      colebrook_loop re eps_r n f = v := by
  intro n
  induction n with
  | zero =>
    intro f v h
    simp only [colebrook_loopE, Except.ok.injEq] at h
    simp only [colebrook_loop, h]
  | succ n ih =>
    intro f v h
    simp only [colebrook_loopE] at h
    simp only [colebrook_loop]
    by_cases h1 : re * Real.sqrt f = 0
    · rw [if_pos h1] at h
      rw [if_pos h1]
      exact Except.ok.inj h
    · rw [if_neg h1] at h
      rw [if_neg h1]
      by_cases h2 : 2 * log10 (eps_r / 3.7) +
          2 * log10 (2.51 / (re * Real.sqrt f)) = 0
      · rw [if_pos h2] at h
        exact Except.noConfusion h
      · rw [if_neg h2] at h
        by_cases h3 : |colebrook_step re eps_r f - f| < 1e-6
        · rw [if_pos h3] at h
          rw [if_pos h3]
          exact Except.ok.inj h
        · rw [if_neg h3] at h
          rw [if_neg h3]
          exact ih _ _ h

/-- On every non-faulting run, the fallible turbulent solver computes the
same value as the pure `calculate_friction_factor_turbulent_colebrook`. -/
theorem calculate_friction_factor_turbulent_colebrookE_ok (re eps_r v : ℝ)
    (h : calculate_friction_factor_turbulent_colebrookE re eps_r = Except.ok v) :
    calculate_friction_factor_turbulent_colebrook re eps_r = v := by
  unfold calculate_friction_factor_turbulent_colebrookE at h
  unfold calculate_friction_factor_turbulent_colebrook
  by_cases h1 : eps_r < 1e-5
  · rw [if_pos h1] at h
    rw [if_pos h1]
    exact Except.ok.inj h
  · rw [if_neg h1] at h
    rw [if_neg h1]
    by_cases h2 : log10 (eps_r / 3.7 + 5.74 / re ^ (0.9 : ℝ)) = 0
    · rw [if_pos h2] at h
      exact Except.noConfusion h
    · rw [if_neg h2] at h
      exact colebrook_loopE_ok re eps_r 5 _ v h

/-- Counterexample to claim C5 as stated: with zero viscosity (infinite
Reynolds number) and a rough pipe of positive diameter, `analyze_pipeline`
fails with the friction solver's `ValueError` (from `math.log10(0.0)` in
its first iteration) even though the grade "X52" is present in the table,
so a present identifier does not guarantee a complete report. -/
theorem C5_valueerror_cx :
    analyze_pipeline 1 100 10 1 0 0 10 1000 0 0.01 "X52"
        = Except.error "ValueError" ∧
      (pipeGradeLookup "X52").isSome = true ∧
      "ValueError" ≠ "KeyError" := by
  refine ⟨?_, rfl, by decide⟩
  have hre : calculate_reynolds_number
      (calculate_flow_velocity 1 (calculate_internal_diameter 100 10 / 1000))
      (calculate_internal_diameter 100 10 / 1000) 0 = ⊤ := by
    unfold calculate_reynolds_number
    rw [if_pos rfl]
  have hlog : ¬ log10 (0.01 / (calculate_internal_diameter 100 10 / 1000) / 3.7) = 0 := by
    have he : (0.01 / (calculate_internal_diameter 100 10 / 1000) / 3.7 : ℝ)
        = 0.125 / 3.7 := by
      norm_num [calculate_internal_diameter]
    rw [he]
    unfold log10
    exact ne_of_lt (Real.logb_neg (by norm_num) (by norm_num) (by norm_num))
  have hff : calculate_friction_factor ⊤ 0.01 (calculate_internal_diameter 100 10 / 1000)
      = Except.error "ValueError" := by
    unfold calculate_friction_factor
    rw [if_neg (by norm_num [calculate_internal_diameter]),
      if_neg (not_top_lt), if_pos rfl,
      if_neg (by norm_num [calculate_internal_diameter]),
      if_neg hlog]
  simp only [analyze_pipeline, hre, hff]

/-- The finite-Reynolds seed fault is reachable through the orchestrator
with a present grade: at nonzero viscosity, `Re = 1048576` (turbulent) and
relative roughness `3.7*(1 - 5.74/262144) ≈ 3.7`, the Swamee-Jain seed's
`log10` argument is exactly `1`, and `analyze_pipeline` fails with the
seed line's `ZeroDivisionError` although "X52" is present in the table. -/
theorem analyze_zero_division_fault :
    analyze_pipeline (26214.4 * Real.pi) 200 50 1 0 0 10 1000 1
        (0.37 * (1 - 5.74 / 262144)) "X52"
        = Except.error "ZeroDivisionError" ∧
      (pipeGradeLookup "X52").isSome = true := by
  refine ⟨?_, rfl⟩
  have hid : calculate_internal_diameter 200 50 / 1000 = (0.1 : ℝ) := by
    unfold calculate_internal_diameter
    norm_num
  have hv : calculate_flow_velocity (26214.4 * Real.pi) (0.1 : ℝ) = 10485760 := by
    unfold calculate_flow_velocity
    rw [if_neg (by norm_num),
      show (Real.pi * ((0.1 : ℝ) / 2) ^ 2) = Real.pi * 0.0025 by norm_num,
      mul_comm (26214.4 : ℝ) Real.pi,
      mul_div_mul_left _ _ Real.pi_ne_zero]
    norm_num
  have hre : calculate_reynolds_number 10485760 0.1 1 = ((1048576 : ℝ) : EReal) := by
    unfold calculate_reynolds_number
    rw [if_neg (by norm_num)]
    norm_num
  have hpow : (1048576 : ℝ) ^ (0.9 : ℝ) = 262144 := by
    rw [show (1048576 : ℝ) = (2 : ℝ) ^ (20 : ℝ) by
        rw [show (20 : ℝ) = ((20 : ℕ) : ℝ) by norm_num, Real.rpow_natCast]
        norm_num,
      ← Real.rpow_mul (by norm_num : (0 : ℝ) ≤ 2),
      show (20 : ℝ) * (0.9 : ℝ) = ((18 : ℕ) : ℝ) by norm_num,
      Real.rpow_natCast]
    norm_num
  have hE : calculate_friction_factor_turbulent_colebrookE 1048576
      (0.37 * (1 - 5.74 / 262144) / 0.1) = Except.error "ZeroDivisionError" := by
    unfold calculate_friction_factor_turbulent_colebrookE
    rw [if_neg (by norm_num : ¬(0.37 * (1 - 5.74 / 262144) / 0.1 : ℝ) < 1e-5),
      if_pos ?_]
    rw [hpow, show (0.37 * (1 - 5.74 / 262144) / 0.1 / 3.7 + 5.74 / 262144 : ℝ) = 1
        by norm_num]
    unfold log10
    exact Real.logb_one
  have hsel : calculate_friction_factor ((1048576 : ℝ) : EReal)
      (0.37 * (1 - 5.74 / 262144)) 0.1 = Except.error "ZeroDivisionError" := by
    unfold calculate_friction_factor
    rw [if_neg (by norm_num : ¬(0.1 : ℝ) ≤ 0),
      if_neg (by rw [EReal.coe_lt_coe_iff]; norm_num),
      if_neg (EReal.coe_ne_top _), EReal.toReal_coe, hE]
  simp only [analyze_pipeline, hid, hv, hre, hsel]

/-- Claim C5, amended to condition on the friction step (step 4) returning
normally — its own arithmetic faults (`ValueError` on the zero-viscosity
rough path, `ZeroDivisionError` when the seed or an iteration divides by an
exact zero) surface before the grade table is consulted and are independent
of the grade. On every such input, `analyze_pipeline` returns a complete
eight-section report exactly when the grade identifier is present in the
table, and fails with the lookup's `KeyError` when it is absent. -/
theorem C5_grade_lookup (q od wt L es ee p rho mu rough : ℝ) (g : String)
    (h : ∃ pr, calculate_friction_factor
      (calculate_reynolds_number
        (calculate_flow_velocity q (calculate_internal_diameter od wt / 1000))
        (calculate_internal_diameter od wt / 1000) mu) rough
      (calculate_internal_diameter od wt / 1000) = Except.ok pr) :
    exceptIsOk (analyze_pipeline q od wt L es ee p rho mu rough g)
        = (pipeGradeLookup g).isSome ∧
      (pipeGradeLookup g = none →
        analyze_pipeline q od wt L es ee p rho mu rough g
          = Except.error "KeyError") := by
  obtain ⟨pr, hpr⟩ := h
  simp only [analyze_pipeline, hpr]
  cases hg : pipeGradeLookup g with
  | none => exact ⟨rfl, fun _ => rfl⟩
  | some gr => exact ⟨rfl, fun hc => Option.noConfusion hc⟩

/-- Witness for the amended C5 on a laminar input (zero flow rate,
viscosity `1`): the friction step returns normally and the present grade
"X52" yields a complete report. -/
theorem C5_grade_lookup_witness :
    exceptIsOk (analyze_pipeline 0 200 50 1 0 0 10 1000 1 0 "X52") = true := by
  have hstep : calculate_friction_factor
      (calculate_reynolds_number
        (calculate_flow_velocity 0 (calculate_internal_diameter 200 50 / 1000))
        (calculate_internal_diameter 200 50 / 1000) 1) 0
      (calculate_internal_diameter 200 50 / 1000)
      = Except.ok (0, "Laminar") := by
    have hid : calculate_internal_diameter 200 50 / 1000 = (0.1 : ℝ) := by
      unfold calculate_internal_diameter
      norm_num
    rw [hid]
    have hv : calculate_flow_velocity 0 (0.1 : ℝ) = 0 := by
      unfold calculate_flow_velocity
      rw [if_neg (by norm_num)]
      simp
    rw [hv]
    have hre : calculate_reynolds_number 0 0.1 1 = ((0 : ℝ) : EReal) := by
      unfold calculate_reynolds_number
      rw [if_neg (by norm_num)]
      norm_num
    rw [hre]
    unfold calculate_friction_factor
    rw [if_neg (by norm_num : ¬(0.1 : ℝ) ≤ 0),
      if_pos (EReal.coe_lt_coe_iff.mpr (by norm_num : (0 : ℝ) < 2300)),
      EReal.toReal_coe]
    unfold calculate_friction_factor_laminar
    rw [if_pos le_rfl]
  have h := (C5_grade_lookup 0 200 50 1 0 0 10 1000 1 0 "X52" ⟨_, hstep⟩).1
  rw [h]
  rfl

/-- Claim C9: two `analyze_pipeline` runs that differ only in
`pipe_length_km` agree on velocity, Reynolds number, flow-regime
classification, friction factor and the entire pressure-containment
section (and on which error they raise, if any). -/
theorem C9_length_independence (q od wt L1 L2 es ee p rho mu rough : ℝ)
    (g : String) :
    (analyze_pipeline q od wt L1 es ee p rho mu rough g).map length_invariant_view
      = (analyze_pipeline q od wt L2 es ee p rho mu rough g).map
          length_invariant_view := by
  simp only [analyze_pipeline]
  cases hfr : calculate_friction_factor
      (calculate_reynolds_number
        (calculate_flow_velocity q (calculate_internal_diameter od wt / 1000))
        (calculate_internal_diameter od wt / 1000) mu) rough
      (calculate_internal_diameter od wt / 1000) with
  | error e => rfl
  | ok fr =>
    cases hg : pipeGradeLookup g with
    | none => rfl
    | some gr => rfl

/-- Claim C10: a concrete input whose downhill elevation assist
(100 m drop, water-like density) exceeds friction plus the 10% minor-loss
allowance (both zero here, as the flow rate is zero): the total pressure
drop is negative, the reported outlet pressure `19.81` bar exceeds the
inlet pressure `10` bar, and the loss percentage `-98.1` is negative —
the reporting clamp applies only at `0`, never at the inlet value. -/
theorem C10_downhill_negative_total :
    (analyze_pipeline 0 100 10 1 100 0 10 1000 1 0 "X52").map (fun r =>
        (r.pressure_drop.total_pressure_drop_pa,
         r.outlet_pressure.inlet_pressure_bar,
         r.outlet_pressure.outlet_pressure_bar,
         r.outlet_pressure.pressure_loss_percent))
        = Except.ok (-981000, 10, 19.81, -98.1) ∧
      (-981000 : ℝ) < 0 ∧ (10 : ℝ) < 19.81 ∧ (-98.1 : ℝ) < 0 := by
  refine ⟨?_, by norm_num, by norm_num, by norm_num⟩
  have hid : calculate_internal_diameter 100 10 / 1000 = (0.08 : ℝ) := by
    unfold calculate_internal_diameter
    norm_num
  have hv : calculate_flow_velocity 0 (0.08 : ℝ) = 0 := by
    unfold calculate_flow_velocity
    rw [if_neg (by norm_num)]
    simp
  have hre : calculate_reynolds_number 0 0.08 1 = ((0 : ℝ) : EReal) := by
    unfold calculate_reynolds_number
    rw [if_neg (by norm_num)]
    norm_num
  have hff : calculate_friction_factor ((0 : ℝ) : EReal) 0 0.08
      = Except.ok ((0 : ℝ), "Laminar") := by
    unfold calculate_friction_factor
    rw [if_neg (by norm_num : ¬(0.08 : ℝ) ≤ 0),
      if_pos (EReal.coe_lt_coe_iff.mpr (by norm_num : (0 : ℝ) < 2300)),
      EReal.toReal_coe]
    unfold calculate_friction_factor_laminar
    rw [if_pos le_rfl]
  have hg : pipeGradeLookup "X52"
      = some ⟨"API 5L X52", 359, 455, "Carbon Steel, Higher grade"⟩ := rfl
  simp only [analyze_pipeline, hid, hv, hre, hff, hg, Except.map]
  norm_num [calculate_friction_pressure_drop, calculate_elevation_pressure_drop,
    calculate_total_pressure_drop, convert_pressure_drop_to_bar_per_km,
    outlet_pressure_section, G_ACCELERATION, max_def]

end Pipeline
